import Mathlib

/-!
# Verification of the machine-control system core

Shallow embedding, in Lean 4, of the core of the machine-control system:
the device adapters (motor, servo, valve, temperature sensor), the
`IODevice.get_status` degradation path, the `MachineControlService`
convenience setters, and the WebSocket `ConnectionManager` (active
connections, per-device subscription index, broadcast fan-out with
failure reaping).

Python dictionaries are embedded as association lists, Python values as
an inductive `PyValue` type (where, as in Python, `bool` is a subtype of
`int`), exceptions as `Except`, and stateful methods as explicit state
transformers.  The async scheduling and the simulated latencies are
embedded by their observable effects only: a send either succeeds or
fails (an explicit failure set parameter), and a delay is the rational
number of seconds the adapter computes.
-/

namespace MachineControl

/-- Python runtime values as they occur in device payloads.  `bool` is a
separate constructor, but — exactly as in Python, where `bool` is a
subclass of `int` — the `isInstInt` check below accepts it and its
integer value is 1 or 0. -/
inductive PyValue where
  | int (n : ℤ)
  | bool (b : Bool)
  | str (s : String)
  | float (q : ℚ)
  | none
deriving DecidableEq, Repr

/-- Python `isinstance(v, int)`: true for `int` and for `bool`
(`bool` subclasses `int` in Python). -/
def PyValue.isInstInt : PyValue → Bool
  | .int _ => true
  | .bool _ => true
  | _ => false

/-- Python `isinstance(v, bool)`. -/
def PyValue.isInstBool : PyValue → Bool
  | .bool _ => true
  | _ => false

/-- The integer a `PyValue` compares as in an arithmetic comparison such
as `0 <= v <= 255` (`True` counts as 1, `False` as 0); other variants do
not reach a comparison in the embedded code paths. -/
def PyValue.toInt : PyValue → ℤ
  | .int n => n
  | .bool b => if b then 1 else 0
  | _ => 0

/-- A Python `dict`-shaped payload: an association list from keys to
values (keys unique in every payload the code builds). -/
def Payload : Type := List (String × PyValue)

/-- `data.get(key)` / `key in data` combined: the value stored under
`key`, if any. -/
def Payload.get (data : Payload) (key : String) : Option PyValue :=
  (List.find? (fun p => p.1 = key) data).map Prod.snd

/-- The exception taxonomy of the device layer.  The Python code signals
all of these as `ValueError` / `ConnectionError` / `TimeoutError` with
distinguishing messages; the spec names them `InvalidPayload`,
`OutOfRange`, `Unreachable`, `TimedOut`, `InvalidData`.
`attributeError` embeds a Python `AttributeError`, which none of the
adapter `except` clauses catch. -/
inductive DeviceError where
  | invalidPayload (msg : String)
  | outOfRange (msg : String)
  | unreachable (msg : String)
  | timedOut (msg : String)
  | invalidData (msg : String)
  | attributeError (msg : String)
deriving DecidableEq, Repr

/-- Whether an error is the spec's `InvalidData` kind. -/
def DeviceError.isInvalidData : DeviceError → Bool
  | .invalidData _ => true
  | _ => false

/-- Whether an error is the spec's `InvalidPayload` kind. -/
def DeviceError.isInvalidPayload : DeviceError → Bool
  | .invalidPayload _ => true
  | _ => false

/-- Whether an error is the spec's `OutOfRange` kind. -/
def DeviceError.isOutOfRange : DeviceError → Bool
  | .outOfRange _ => true
  | _ => false

namespace MotorAdapter

/-- `MotorAdapter.read`: returns the stored `_current_speed` (the
simulated 15–45 ms delay has no observable effect on the value). -/
def read (current_speed : PyValue) : PyValue := current_speed

/-- `MotorAdapter.write` from `motor_adapter.py`, as a state
transformer: given the stored `_current_speed` and the payload, returns
the call's outcome together with the stored value after the call.
Mirrors the source order: missing `"speed"` key → `ValueError`
(`InvalidPayload`); non-`isinstance(·, int)` value → `ValueError`
(`InvalidPayload`); value outside `0 ≤ s ≤ 255` → `ValueError`
(`OutOfRange`); otherwise the stored value becomes the payload value
(which, as in Python, may be a `bool`). -/
def write (current_speed : PyValue) (data : Payload) :
    Except DeviceError Unit × PyValue :=
  match data.get "speed" with
  | Option.none =>
      (Except.error (.invalidPayload "Invalid payload: 'speed' key required"),
       current_speed)
  | Option.some new_speed =>
      if ¬ new_speed.isInstInt then
        (Except.error (.invalidPayload "Invalid payload: 'speed' must be integer"),
         current_speed)
      else if ¬ (0 ≤ new_speed.toInt ∧ new_speed.toInt ≤ 255) then
        (Except.error (.outOfRange "Invalid speed: must be in range 0-255 (8-bit PWM)"),
         current_speed)
      else
        (Except.ok (), new_speed)

end MotorAdapter

namespace ServoAdapter

/-- `ServoAdapter.read`: returns the stored `_current_angle`. -/
def read (current_angle : PyValue) : PyValue := current_angle

/-- `ServoAdapter.write` from `servo_adapter.py`, as a state
transformer (outcome, stored value after the call).  Validation order
mirrors the source: missing `"angle"` key, then the `isinstance(·, int)`
check, then the `0 ≤ a ≤ 180` range check; on success the stored value
becomes the payload value. -/
def write (current_angle : PyValue) (data : Payload) :
    Except DeviceError Unit × PyValue :=
  match data.get "angle" with
  | Option.none =>
      (Except.error (.invalidPayload "Invalid payload: 'angle' key required"),
       current_angle)
  | Option.some new_angle =>
      if ¬ new_angle.isInstInt then
        (Except.error (.invalidPayload "Invalid payload: 'angle' must be integer"),
         current_angle)
      else if ¬ (0 ≤ new_angle.toInt ∧ new_angle.toInt ≤ 180) then
        (Except.error (.outOfRange "Invalid angle: must be in range 0-180 degrees"),
         current_angle)
      else
        (Except.ok (), new_angle)

/-- The total simulated write delay of `ServoAdapter.write`, in seconds:
`base_delay + |new_angle - current_angle| * rate`, where
`base_delay = random.uniform(0.030, 0.070)` and
`rate = random.uniform(0.001, 0.002)` are the two random draws. -/
def total_delay (current_angle new_angle : ℤ) (base_delay rate : ℚ) : ℚ :=
  base_delay + ((new_angle - current_angle).natAbs : ℚ) * rate

end ServoAdapter

namespace ValveAdapter

/-- `ValveAdapter.read`: returns the stored `_is_open`. -/
def read (is_open : PyValue) : PyValue := is_open

/-- `ValveAdapter.write` from `valve_adapter.py`, as a state transformer
(outcome, stored value after the call): missing `"value"` key or a
non-`isinstance(·, bool)` value → `ValueError` (`InvalidPayload`);
otherwise the stored value becomes the payload value. -/
def write (is_open : PyValue) (data : Payload) :
    Except DeviceError Unit × PyValue :=
  match data.get "value" with
  | Option.none =>
      (Except.error (.invalidPayload "Invalid payload: 'value' key required"),
       is_open)
  | Option.some new_state =>
      if ¬ new_state.isInstBool then
        (Except.error (.invalidPayload "Invalid payload: 'value' must be boolean"),
         is_open)
      else
        (Except.ok (), new_state)

end ValveAdapter

/-- A parsed JSON value, as `response.json()` yields it in Python
(`null` becomes Python `None`, objects become `dict`s, JSON numbers and
booleans become `float`/`int`/`bool`). -/
inductive JsonVal where
  | num (q : ℚ)
  | bool (b : Bool)
  | str (s : String)
  | null
  | obj (fields : List (String × JsonVal))
  | arr (elems : List JsonVal)

/-- The field lookup of a Python `dict` built from a JSON object. -/
def JsonVal.lookupField (fields : List (String × JsonVal)) (key : String) :
    Option JsonVal :=
  ((List.find? (fun p => p.1 = key)) fields).map Prod.snd

/-- Python `v.get(key, default)`: a `dict` lookup falling back to
`default`; calling `.get` on a non-`dict` raises `AttributeError`. -/
def JsonVal.pyGet (v : JsonVal) (key : String) (default : JsonVal) :
    Except DeviceError JsonVal :=
  match v with
  | .obj fields => Except.ok ((JsonVal.lookupField fields key).getD default)
  | _ => Except.error (.attributeError "object has no attribute get")

/-- Whether a parsed JSON value is an object (a Python `dict`). -/
def JsonVal.isObj : JsonVal → Bool
  | .obj _ => true
  | _ => false

/-- Python `v is None` on a parsed JSON value (JSON `null` parses to
Python `None`). -/
def JsonVal.isNull : JsonVal → Bool
  | .null => true
  | _ => false

/-- Python `isinstance(v, (int, float))` on a parsed JSON value: true
for numbers and — `bool` being a subclass of `int` — for booleans. -/
def JsonVal.isInstIntOrFloat : JsonVal → Bool
  | .num _ => true
  | .bool _ => true
  | _ => false

/-- Python `float(v)` for the values `isInstIntOrFloat` accepts. -/
def JsonVal.toFloat : JsonVal → ℚ
  | .num q => q
  | .bool b => if b then 1 else 0
  | _ => 0

/-- The observable outcome of the HTTP GET that
`TemperatureAdapter.read` issues: the request timed out
(`httpx.TimeoutException`), failed at the network level
(`httpx.RequestError`), or produced a response with a status code and a
body (`Except.error` when the body is not parseable JSON, in which case
`response.json()` raises `json.JSONDecodeError`, a `ValueError`
subclass). -/
inductive HttpResult where
  | timeout (msg : String)
  | requestError (msg : String)
  | response (status : ℕ) (body : Except String JsonVal)

namespace TemperatureAdapter

/-- The body of `TemperatureAdapter.read` after the request resolved to
`data = response.json()`: `data.get("current_weather", {})`, then
`.get("temperature")`, the `None` check, the `isinstance` check, and
`float(...)`; a `ValueError` raised here is caught by the
`except (KeyError, ValueError)` clause and re-wrapped, while an
`AttributeError` (`.get` on a non-`dict`) propagates uncaught. -/
def extract_temperature (data : JsonVal) : Except DeviceError ℚ :=
  match data.pyGet "current_weather" (JsonVal.obj []) with
  | Except.error e => Except.error e
  | Except.ok current_weather =>
      match current_weather.pyGet "temperature" JsonVal.null with
      | Except.error e => Except.error e
      | Except.ok temperature =>
          if temperature.isNull then
            Except.error (.invalidData
              "Invalid temperature API response: Invalid API response: missing temperature data")
          else if ¬ temperature.isInstIntOrFloat then
            Except.error (.invalidData
              "Invalid temperature API response: Invalid temperature format")
          else
            Except.ok temperature.toFloat

/-- `TemperatureAdapter.read` from `temperature_adapter.py`, over the
observable outcome of the HTTP fetch.  `httpx.TimeoutException` →
`TimeoutError` (`TimedOut`); `response.raise_for_status()` raises
`httpx.HTTPStatusError` for every non-2xx status → `ConnectionError`
(`Unreachable`); `httpx.RequestError` → `ConnectionError`
(`Unreachable`); an unparseable body raises a `ValueError` subclass,
caught and re-wrapped (`InvalidData`); otherwise the temperature is
extracted from the parsed body. -/
def read (result : HttpResult) : Except DeviceError ℚ :=
  match result with
  | .timeout msg =>
      Except.error (.timedOut ("Temperature API request timeout: " ++ msg))
  | .requestError msg =>
      Except.error (.unreachable ("Temperature API connection error: " ++ msg))
  | .response status body =>
      if ¬ (200 ≤ status ∧ status ≤ 299) then
        Except.error (.unreachable ("Temperature API HTTP error " ++ toString status))
      else
        match body with
        | Except.error msg =>
            Except.error (.invalidData ("Invalid temperature API response: " ++ msg))
        | Except.ok data => extract_temperature data

/-- `TemperatureAdapter.write`: always raises `ValueError` — the device
is read-only — leaving no state to mutate. -/
def write (_data : Payload) : Except DeviceError Unit :=
  Except.error (.invalidPayload
    "Temperature sensor is read-only device; write operations not supported")

end TemperatureAdapter

/-- What `IODevice.get_status` observes of a device: its identity
properties and the outcome of its `read()` call (an exception being
carried as its `str(e)` message). -/
structure DeviceView where
  device_id : String
  device_type : String
  read_result : Except String PyValue

/-- `IODevice.get_status` from `io_device.py`: calls `read()` inside a
`try`; on success returns the `online` dict with the value under
`"data"`, on any exception returns the `error` dict with `str(e)` under
`"message"`.  Total by construction — no exception escapes. -/
def IODevice.get_status (d : DeviceView) : Payload :=
  match d.read_result with
  | Except.ok current_value =>
      [("device_id", PyValue.str d.device_id),
       ("device_type", PyValue.str d.device_type),
       ("status", PyValue.str "online"),
       ("data", current_value)]
  | Except.error e =>
      [("device_id", PyValue.str d.device_id),
       ("device_type", PyValue.str d.device_type),
       ("status", PyValue.str "error"),
       ("message", PyValue.str e)]

namespace MachineControlService

/-- The payload `MachineControlService.set_motor_speed` builds in
`machine_service.py`: `{"value": speed}` — note the key. -/
def set_motor_speed_payload (speed : ℤ) : Payload :=
  [("value", PyValue.int speed)]

/-- `MachineControlService.set_motor_speed`, given that a motor device
exists: delegates `motors[0].write({"value": speed})` to the motor
adapter, returning the outcome and the motor's stored value after the
call. -/
def set_motor_speed (current_speed : PyValue) (speed : ℤ) :
    Except DeviceError Unit × PyValue :=
  MotorAdapter.write current_speed (set_motor_speed_payload speed)

end MachineControlService

/-- An opaque handle to a live WebSocket channel. -/
abbrev Conn : Type := ℕ

/-- The state of `ConnectionManager` in `manager.py`:
`active_connections` is a `set`, `device_subscriptions` a `dict` from
device id to a `set` of connections, embedded as an association list to
keep the dict's key-presence behaviour (empty entries are deleted, not
set to an empty set). -/
structure ManagerState where
  active_connections : Finset Conn
  device_subscriptions : List (String × Finset Conn)
deriving DecidableEq

/-- The empty manager state built by `ConnectionManager.__init__`. -/
def ManagerState.init : ManagerState := ⟨∅, []⟩

/-- `self.device_subscriptions.get(device_id, set())`. -/
def ManagerState.subsOf (s : ManagerState) (device_id : String) : Finset Conn :=
  (((List.find? (fun p => p.1 = device_id)) s.device_subscriptions).map Prod.snd).getD ∅

/-- An outbound WebSocket message, up to its `timestamp` field (wall
clock time is not part of the embedding). -/
structure WsMessage where
  mtype : String
  device_id : Option String
  data : Option String
deriving DecidableEq, Repr

namespace ConnectionManager

/-- `ConnectionManager.disconnect`: `discard` the connection from the
active set; for every subscription key, `discard` it from that key's
set and delete the key if its set became empty. -/
def disconnect (s : ManagerState) (websocket : Conn) : ManagerState :=
  { active_connections := s.active_connections.erase websocket,
    device_subscriptions :=
      (s.device_subscriptions.map
          (fun p => (p.1, p.2.erase websocket))).filter
        (fun p => ¬ p.2 = ∅) }

/-- `ConnectionManager._send_to_connection`: `send_text` either succeeds
(no state change) or raises, in which case the connection is passed to
`disconnect`.  `failing` is the set of connections whose send fails
during the operation. -/
def send_to_connection (s : ManagerState) (failing : Finset Conn)
    (websocket : Conn) : ManagerState :=
  if websocket ∈ failing then disconnect s websocket else s

/-- `ConnectionManager.connect`: accept, add to the active set, then
unicast the welcome message (whose failure reaps the connection). -/
def connect (s : ManagerState) (failing : Finset Conn) (websocket : Conn) :
    ManagerState :=
  send_to_connection
    { s with active_connections := insert websocket s.active_connections }
    failing websocket

/-- The `device_subscriptions` update of
`ConnectionManager.subscribe_to_device`: create the key with an empty
set if absent, then `add` the connection to the key's set. -/
def subsInsert (subs : List (String × Finset Conn)) (device_id : String)
    (websocket : Conn) : List (String × Finset Conn) :=
  if subs.any (fun p => p.1 = device_id) then
    subs.map (fun p => if p.1 = device_id then (p.1, insert websocket p.2) else p)
  else
    subs ++ [(device_id, {websocket})]

/-- `ConnectionManager.subscribe_to_device`: insert into the per-device
subscriber set (no membership check against the active set!), then
unicast the `subscription_confirmed` message. -/
def subscribe_to_device (s : ManagerState) (failing : Finset Conn)
    (websocket : Conn) (device_id : String) : ManagerState :=
  send_to_connection
    { s with device_subscriptions := subsInsert s.device_subscriptions device_id websocket }
    failing websocket

/-- The `device_subscriptions` update of
`ConnectionManager.unsubscribe_from_device`: if the key is present,
`discard` the connection from its set and delete the key if the set
became empty. -/
def subsRemove (subs : List (String × Finset Conn)) (device_id : String)
    (websocket : Conn) : List (String × Finset Conn) :=
  if subs.any (fun p => p.1 = device_id) then
    (subs.map
        (fun p => if p.1 = device_id then (p.1, p.2.erase websocket) else p)).filter
      (fun p => ¬ (p.1 = device_id ∧ p.2 = ∅))
  else subs

/-- `ConnectionManager.unsubscribe_from_device`: remove from the
per-device subscriber set, then unicast the `subscription_removed`
message (sent even when the caller was never subscribed). -/
def unsubscribe_from_device (s : ManagerState) (failing : Finset Conn)
    (websocket : Conn) (device_id : String) : ManagerState :=
  send_to_connection
    { s with device_subscriptions := subsRemove s.device_subscriptions device_id websocket }
    failing websocket

/-- `ConnectionManager._broadcast_to_connections`: one `_safe_send` per
connection, concurrently; a failed send records the connection into
`failed_connections` instead of raising; after all sends complete every
failed connection is passed through `disconnect`.  Returns the sends
performed (each connection of the snapshot paired with the one
serialized message) and the state after the reap. -/
def broadcast_to_connections (s : ManagerState) (failing : Finset Conn)
    (connections : Finset Conn) (message : WsMessage) :
    List (Conn × WsMessage) × ManagerState :=
  if connections = ∅ then ([], s)
  else
    let failed_connections := connections ∩ failing
    ((connections.sort (· ≤ ·)).map (fun c => (c, message)),
     (failed_connections.sort (· ≤ ·)).foldl (fun st c => disconnect st c) s)

/-- `ConnectionManager.broadcast_device_update`: return immediately when
there are no active connections; otherwise build the one `device_update`
message and broadcast it to **all** active connections (the
`device_subscribers` lookup is computed but unused by the send). -/
def broadcast_device_update (s : ManagerState) (failing : Finset Conn)
    (device_id : String) (device_data : String) :
    List (Conn × WsMessage) × ManagerState :=
  if s.active_connections = ∅ then ([], s)
  else
    let message : WsMessage :=
      { mtype := "device_update", device_id := some device_id, data := some device_data }
    let _device_subscribers := s.subsOf device_id
    broadcast_to_connections s failing s.active_connections message

/-- `ConnectionManager.broadcast_system_status`: same fan-out as
`broadcast_device_update`, different message shape. -/
def broadcast_system_status (s : ManagerState) (failing : Finset Conn)
    (status_data : String) : List (Conn × WsMessage) × ManagerState :=
  if s.active_connections = ∅ then ([], s)
  else
    let message : WsMessage :=
      { mtype := "system_status", device_id := Option.none, data := some status_data }
    broadcast_to_connections s failing s.active_connections message

/-- `ConnectionManager.get_connection_count`. -/
def get_connection_count (s : ManagerState) : ℕ := s.active_connections.card

/-- `ConnectionManager.get_device_subscriber_count`. -/
def get_device_subscriber_count (s : ManagerState) (device_id : String) : ℕ :=
  (s.subsOf device_id).card

/-- The manager states reachable from the initial state by arbitrary
`connect` / `disconnect` / `subscribe` / `unsubscribe` / broadcast
calls, each applied to arbitrary connections, device ids, payloads and
send-failure sets. -/
inductive Reachable : ManagerState → Prop where
  | init : Reachable ManagerState.init
  | connect (s : ManagerState) (failing : Finset Conn) (ws : Conn) :
      Reachable s → Reachable (connect s failing ws)
  | disconnect (s : ManagerState) (ws : Conn) :
      Reachable s → Reachable (disconnect s ws)
  | subscribe (s : ManagerState) (failing : Finset Conn) (ws : Conn) (d : String) :
      Reachable s → Reachable (subscribe_to_device s failing ws d)
  | unsubscribe (s : ManagerState) (failing : Finset Conn) (ws : Conn) (d : String) :
      Reachable s → Reachable (unsubscribe_from_device s failing ws d)
  | bcastDevice (s : ManagerState) (failing : Finset Conn) (d data : String) :
      Reachable s → Reachable (broadcast_device_update s failing d data).2
  | bcastSystem (s : ManagerState) (failing : Finset Conn) (data : String) :
      Reachable s → Reachable (broadcast_system_status s failing data).2

/-- Like `Reachable`, but `subscribe_to_device` is only ever applied to
a currently active connection — the discipline the WebSocket endpoint
enforces, since it only issues subscriptions for the connection it has
itself registered. -/
inductive ReachableGuarded : ManagerState → Prop where
  | init : ReachableGuarded ManagerState.init
  | connect (s : ManagerState) (failing : Finset Conn) (ws : Conn) :
      ReachableGuarded s → ReachableGuarded (connect s failing ws)
  | disconnect (s : ManagerState) (ws : Conn) :
      ReachableGuarded s → ReachableGuarded (disconnect s ws)
  | subscribe (s : ManagerState) (failing : Finset Conn) (ws : Conn) (d : String) :
      ws ∈ s.active_connections →
      ReachableGuarded s → ReachableGuarded (subscribe_to_device s failing ws d)
  | unsubscribe (s : ManagerState) (failing : Finset Conn) (ws : Conn) (d : String) :
      ReachableGuarded s → ReachableGuarded (unsubscribe_from_device s failing ws d)
  | bcastDevice (s : ManagerState) (failing : Finset Conn) (d data : String) :
      ReachableGuarded s → ReachableGuarded (broadcast_device_update s failing d data).2
  | bcastSystem (s : ManagerState) (failing : Finset Conn) (data : String) :
      ReachableGuarded s → ReachableGuarded (broadcast_system_status s failing data).2

end ConnectionManager

/-- The Subscription Index invariant of the spec: every connection
appearing in any per-device subscription set is also a member of the
active-connection set. -/
def SubsInv (s : ManagerState) : Prop :=
  ∀ p ∈ s.device_subscriptions, ∀ c ∈ p.2, c ∈ s.active_connections

instance (s : ManagerState) : Decidable (SubsInv s) := by
  unfold SubsInv
  infer_instance

/-! ## Theorems for the claims -/

/-- Claim C3: for every integer `s` with `0 ≤ s ≤ 255`, writing
`{speed: s}` to the motor succeeds (storing `s`), and a subsequent read
of the motor returns `s`. -/
theorem motor_write_then_read_roundtrip (current : PyValue) (s : ℤ)
    (h0 : 0 ≤ s) (h255 : s ≤ 255) :
    MotorAdapter.write current [("speed", PyValue.int s)] = (Except.ok (), PyValue.int s) ∧
    MotorAdapter.read (MotorAdapter.write current [("speed", PyValue.int s)]).2 =
      PyValue.int s := by
  simp [MotorAdapter.write, MotorAdapter.read, Payload.get, List.find?,
    PyValue.isInstInt, PyValue.toInt, h0, h255]

theorem motor_write_then_read_roundtrip_witness :
    MotorAdapter.write (PyValue.int 7) [("speed", PyValue.int 200)] =
      (Except.ok (), PyValue.int 200) ∧
    MotorAdapter.read (MotorAdapter.write (PyValue.int 7) [("speed", PyValue.int 200)]).2 =
      PyValue.int 200 :=
  motor_write_then_read_roundtrip (PyValue.int 7) 200 (by decide) (by decide)

/-- Claim C4: a `write` whose payload is rejected (missing field, wrong
type, or value outside the device's domain) returns the corresponding
`InvalidPayload` / `OutOfRange` error and leaves the stored value
exactly as it was; only a successful write replaces it.  Conjunct by
conjunct: every motor / servo / valve write failure is an
`InvalidPayload` or `OutOfRange` error with unchanged state; a motor
payload missing `"speed"` fails with `InvalidPayload`, a
non-integer `"speed"` fails with `InvalidPayload`, an integer outside
`[0,255]` fails with `OutOfRange`; and the spec's concrete cases
`{speed: -1}` and `{speed: 256}` fail with `OutOfRange`, state
unchanged. -/
theorem write_failure_preserves_stored_value (current : PyValue) (data : Payload) :
    (∀ e, (MotorAdapter.write current data).1 = Except.error e →
       (MotorAdapter.write current data).2 = current ∧
       (e.isInvalidPayload = true ∨ e.isOutOfRange = true)) ∧
    (∀ e, (ServoAdapter.write current data).1 = Except.error e →
       (ServoAdapter.write current data).2 = current ∧
       (e.isInvalidPayload = true ∨ e.isOutOfRange = true)) ∧
    (∀ e, (ValveAdapter.write current data).1 = Except.error e →
       (ValveAdapter.write current data).2 = current ∧ e.isInvalidPayload = true) ∧
    (data.get "speed" = Option.none →
       (MotorAdapter.write current data).1 =
         Except.error (DeviceError.invalidPayload "Invalid payload: 'speed' key required")) ∧
    (∀ v, data.get "speed" = Option.some v → v.isInstInt = false →
       (MotorAdapter.write current data).1 =
         Except.error (DeviceError.invalidPayload "Invalid payload: 'speed' must be integer")) ∧
    (∀ v, data.get "speed" = Option.some v → v.isInstInt = true →
       ¬ (0 ≤ v.toInt ∧ v.toInt ≤ 255) →
       (MotorAdapter.write current data).1 =
         Except.error (DeviceError.outOfRange "Invalid speed: must be in range 0-255 (8-bit PWM)")) ∧
    (MotorAdapter.write current [("speed", PyValue.int (-1))] =
       (Except.error (DeviceError.outOfRange "Invalid speed: must be in range 0-255 (8-bit PWM)"),
        current)) ∧
    (MotorAdapter.write current [("speed", PyValue.int 256)] =
       (Except.error (DeviceError.outOfRange "Invalid speed: must be in range 0-255 (8-bit PWM)"),
        current)) := by
  refine ⟨?_, ?_, ?_, ?_, ?_, ?_, ?_, ?_⟩
  · intro e he
    unfold MotorAdapter.write at he ⊢
    cases hg : data.get "speed" with
    | none =>
        simp [hg] at he ⊢
        subst he
        simp [DeviceError.isInvalidPayload]
    | some v =>
        simp [hg] at he ⊢
        by_cases h1 : v.isInstInt = true
        · by_cases h2 : (0 ≤ v.toInt ∧ v.toInt ≤ 255)
          · have h3 : ¬ (0 ≤ v.toInt → 255 < v.toInt) := by omega
            simp only [h1] at he
            rw [if_neg h3] at he
            simp at he
          · have h3 : 0 ≤ v.toInt → 255 < v.toInt := by omega
            simp only [h1] at he ⊢
            rw [if_pos h3] at he ⊢
            simp at he ⊢
            subst he
            simp [DeviceError.isOutOfRange]
        · rw [Bool.not_eq_true] at h1
          simp [h1] at he ⊢
          subst he
          simp [DeviceError.isInvalidPayload]
  · intro e he
    unfold ServoAdapter.write at he ⊢
    cases hg : data.get "angle" with
    | none =>
        simp [hg] at he ⊢
        subst he
        simp [DeviceError.isInvalidPayload]
    | some v =>
        simp [hg] at he ⊢
        by_cases h1 : v.isInstInt = true
        · by_cases h2 : (0 ≤ v.toInt ∧ v.toInt ≤ 180)
          · have h3 : ¬ (0 ≤ v.toInt → 180 < v.toInt) := by omega
            simp only [h1] at he
            rw [if_neg h3] at he
            simp at he
          · have h3 : 0 ≤ v.toInt → 180 < v.toInt := by omega
            simp only [h1] at he ⊢
            rw [if_pos h3] at he ⊢
            simp at he ⊢
            subst he
            simp [DeviceError.isOutOfRange]
        · rw [Bool.not_eq_true] at h1
          simp [h1] at he ⊢
          subst he
          simp [DeviceError.isInvalidPayload]
  · intro e he
    unfold ValveAdapter.write at he ⊢
    cases hg : data.get "value" with
    | none =>
        simp [hg] at he ⊢
        subst he
        simp [DeviceError.isInvalidPayload]
    | some v =>
        simp [hg] at he ⊢
        by_cases h1 : v.isInstBool = true
        · simp [h1] at he
        · rw [Bool.not_eq_true] at h1
          simp [h1] at he ⊢
          subst he
          simp [DeviceError.isInvalidPayload]
  · intro hg
    unfold MotorAdapter.write
    simp [hg]
  · intro v hg hv
    unfold MotorAdapter.write
    simp [hg, hv]
  · intro v hg hv hrange
    unfold MotorAdapter.write
    simp [hg, hv, hrange]
  · unfold MotorAdapter.write
    simp [Payload.get, List.find?, PyValue.isInstInt, PyValue.toInt]
  · unfold MotorAdapter.write
    simp [Payload.get, List.find?, PyValue.isInstInt, PyValue.toInt]

theorem write_failure_preserves_stored_value_witness :
    (MotorAdapter.write (PyValue.int 7) [("speed", PyValue.int 256)]).2 = PyValue.int 7 ∧
    ((DeviceError.outOfRange "Invalid speed: must be in range 0-255 (8-bit PWM)").isInvalidPayload
        = true ∨
     (DeviceError.outOfRange "Invalid speed: must be in range 0-255 (8-bit PWM)").isOutOfRange
        = true) :=
  (write_failure_preserves_stored_value (PyValue.int 7) [("speed", PyValue.int 256)]).1
    (DeviceError.outOfRange "Invalid speed: must be in range 0-255 (8-bit PWM)") (by rfl)

/-- Claim C7: the Coordinator's convenience setter `set_motor_speed`
builds the payload under the key `"value"` while `MotorAdapter.write`
requires the key `"speed"`, so for every integer speed — including
every valid speed in `[0,255]` — it fails with the `InvalidPayload`
error for a missing `"speed"` key and leaves the motor's stored value
unchanged; it never succeeds. -/
theorem set_motor_speed_always_invalid_payload (current : PyValue) (speed : ℤ) :
    MachineControlService.set_motor_speed current speed =
      (Except.error (DeviceError.invalidPayload "Invalid payload: 'speed' key required"),
       current) := by
  simp [MachineControlService.set_motor_speed, MachineControlService.set_motor_speed_payload,
    MotorAdapter.write, Payload.get, List.find?]

/-- Claim C10: because Python's `bool` is a subtype of `int`, boolean
payload values pass both the `isinstance(·, int)` check and the range
check (`True` compares as 1, `False` as 0), so motor and servo writes
accept them and store the boolean itself as the device's value. -/
theorem motor_servo_write_accept_bool (current : PyValue) (b : Bool) :
    MotorAdapter.write current [("speed", PyValue.bool b)] =
      (Except.ok (), PyValue.bool b) ∧
    ServoAdapter.write current [("angle", PyValue.bool b)] =
      (Except.ok (), PyValue.bool b) := by
  cases b <;>
    simp [MotorAdapter.write, ServoAdapter.write, Payload.get, List.find?,
      PyValue.isInstInt, PyValue.toInt]

/-- Claim C5: `get_status` is total (never raises, by construction of
the embedding); it always carries the device's id and type, reports
`online` plus the read value when `read()` succeeds, and `error` plus
the exception's message when `read()` fails. -/
theorem get_status_never_fails (d : DeviceView) :
    (IODevice.get_status d).get "device_id" = Option.some (PyValue.str d.device_id) ∧
    (IODevice.get_status d).get "device_type" = Option.some (PyValue.str d.device_type) ∧
    (∀ v, d.read_result = Except.ok v →
       (IODevice.get_status d).get "status" = Option.some (PyValue.str "online") ∧
       (IODevice.get_status d).get "data" = Option.some v) ∧
    (∀ m, d.read_result = Except.error m →
       (IODevice.get_status d).get "status" = Option.some (PyValue.str "error") ∧
       (IODevice.get_status d).get "message" = Option.some (PyValue.str m)) := by
  obtain ⟨id, ty, r⟩ := d
  cases r <;> simp [IODevice.get_status, Payload.get, List.find?]

theorem get_status_never_fails_witness :
    (IODevice.get_status ⟨"temp-1", "temperature_sensor", Except.error "boom"⟩).get "status"
        = Option.some (PyValue.str "error") ∧
    (IODevice.get_status ⟨"temp-1", "temperature_sensor", Except.error "boom"⟩).get "message"
        = Option.some (PyValue.str "boom") :=
  (get_status_never_fails ⟨"temp-1", "temperature_sensor", Except.error "boom"⟩).2.2.2
    "boom" rfl

/-- Claim C9: for every choice of the random draws within their
documented ranges (base delay in [0.030, 0.070] s, per-degree rate in
[0.001, 0.002] s), the total servo write delay for the movement 90→0
is strictly greater than the one for the movement 90→95: the former is
at least 0.030 + 90·0.001 = 0.120 s, the latter at most
0.070 + 5·0.002 = 0.080 s. -/
theorem servo_delay_distance_proportional (b1 r1 b2 r2 : ℚ)
    (hb1 : 30/1000 ≤ b1) (hb1u : b1 ≤ 70/1000)
    (hr1 : 1/1000 ≤ r1) (hr1u : r1 ≤ 2/1000)
    (hb2 : 30/1000 ≤ b2) (hb2u : b2 ≤ 70/1000)
    (hr2 : 1/1000 ≤ r2) (hr2u : r2 ≤ 2/1000) :
    ServoAdapter.total_delay 90 0 b1 r1 > ServoAdapter.total_delay 90 95 b2 r2 := by
  unfold ServoAdapter.total_delay
  have e1 : (((0 : ℤ) - 90).natAbs : ℚ) = 90 := by norm_num
  have e2 : (((95 : ℤ) - 90).natAbs : ℚ) = 5 := by norm_num
  rw [e1, e2]
  nlinarith [hr1, hr1u, hr2, hr2u, hb1, hb2u]

theorem servo_delay_distance_proportional_witness :
    ServoAdapter.total_delay 90 0 (30/1000) (1/1000) >
      ServoAdapter.total_delay 90 95 (70/1000) (2/1000) :=
  servo_delay_distance_proportional (30/1000) (1/1000) (70/1000) (2/1000)
    (by norm_num) (by norm_num) (by norm_num) (by norm_num)
    (by norm_num) (by norm_num) (by norm_num) (by norm_num)

/-- Claim C8 counterexample: the response body
`{"current_weather": 5}` lacks a numeric `current_weather.temperature`
field, yet the read does not fail with `InvalidData`: the code calls
`.get("temperature")` on the non-`dict` value `5`, raising an
`AttributeError` that no `except` clause of `TemperatureAdapter.read`
catches. -/
theorem temperature_read_classification_cex :
    TemperatureAdapter.read (HttpResult.response 200 (Except.ok
        (JsonVal.obj [("current_weather", JsonVal.num 5)]))) =
      Except.error (DeviceError.attributeError "object has no attribute get") ∧
    DeviceError.isInvalidData
        (DeviceError.attributeError "object has no attribute get") = false :=
  ⟨rfl, rfl⟩

/-- Claim C8 as amended: `TemperatureAdapter.read` classifies the fetch
outcomes as follows.  A timeout fails with `TimedOut`; a
network/connection failure fails with `Unreachable`; a non-2xx response
fails with `Unreachable`; a 2xx response whose body is not parseable
JSON fails with `InvalidData`; for a 2xx response the result is the
extraction from the parsed body, where: a missing `current_weather`
key, a missing or `null` `temperature` key in a `current_weather`
object, or a `temperature` value that is neither a number nor a boolean
fails with `InvalidData`; a numeric `temperature` is returned as a
float; a boolean `temperature` is accepted (Python `bool` being an
`int` subtype) and returned as 1.0/0.0; and a non-object
`current_weather` value raises an uncaught `AttributeError` instead of
`InvalidData`. -/
theorem temperature_read_classification :
    (∀ m, TemperatureAdapter.read (HttpResult.timeout m) =
       Except.error (DeviceError.timedOut ("Temperature API request timeout: " ++ m))) ∧
    (∀ m, TemperatureAdapter.read (HttpResult.requestError m) =
       Except.error (DeviceError.unreachable ("Temperature API connection error: " ++ m))) ∧
    (∀ st b, ¬ (200 ≤ st ∧ st ≤ 299) →
       TemperatureAdapter.read (HttpResult.response st b) =
         Except.error (DeviceError.unreachable ("Temperature API HTTP error " ++ toString st))) ∧
    (∀ st m, 200 ≤ st ∧ st ≤ 299 →
       TemperatureAdapter.read (HttpResult.response st (Except.error m)) =
         Except.error (DeviceError.invalidData ("Invalid temperature API response: " ++ m))) ∧
    (∀ st data, 200 ≤ st ∧ st ≤ 299 →
       TemperatureAdapter.read (HttpResult.response st (Except.ok data)) =
         TemperatureAdapter.extract_temperature data) ∧
    (∀ fields, JsonVal.lookupField fields "current_weather" = Option.none →
       TemperatureAdapter.extract_temperature (JsonVal.obj fields) =
         Except.error (DeviceError.invalidData
           "Invalid temperature API response: Invalid API response: missing temperature data")) ∧
    (∀ fields cwf, JsonVal.lookupField fields "current_weather"
         = Option.some (JsonVal.obj cwf) →
       JsonVal.lookupField cwf "temperature" = Option.none ∨
         JsonVal.lookupField cwf "temperature" = Option.some JsonVal.null →
       TemperatureAdapter.extract_temperature (JsonVal.obj fields) =
         Except.error (DeviceError.invalidData
           "Invalid temperature API response: Invalid API response: missing temperature data")) ∧
    (∀ fields cwf t, JsonVal.lookupField fields "current_weather"
         = Option.some (JsonVal.obj cwf) →
       JsonVal.lookupField cwf "temperature" = Option.some t →
       t.isNull = false → t.isInstIntOrFloat = false →
       TemperatureAdapter.extract_temperature (JsonVal.obj fields) =
         Except.error (DeviceError.invalidData
           "Invalid temperature API response: Invalid temperature format")) ∧
    (∀ fields cwf q, JsonVal.lookupField fields "current_weather"
         = Option.some (JsonVal.obj cwf) →
       JsonVal.lookupField cwf "temperature" = Option.some (JsonVal.num q) →
       TemperatureAdapter.extract_temperature (JsonVal.obj fields) = Except.ok q) ∧
    (∀ fields cwf b, JsonVal.lookupField fields "current_weather"
         = Option.some (JsonVal.obj cwf) →
       JsonVal.lookupField cwf "temperature" = Option.some (JsonVal.bool b) →
       TemperatureAdapter.extract_temperature (JsonVal.obj fields) =
         Except.ok (if b then 1 else 0)) ∧
    (∀ fields cw, JsonVal.lookupField fields "current_weather" = Option.some cw →
       cw.isObj = false →
       TemperatureAdapter.extract_temperature (JsonVal.obj fields) =
         Except.error (DeviceError.attributeError "object has no attribute get")) := by
  refine ⟨fun m => rfl, fun m => rfl, ?_, ?_, ?_, ?_, ?_, ?_, ?_, ?_, ?_⟩
  · intro st b h
    simp [TemperatureAdapter.read, h]
  · intro st m h
    simp [TemperatureAdapter.read, h]
  · intro st data h
    simp [TemperatureAdapter.read, h]
  · intro fields h
    simp only [TemperatureAdapter.extract_temperature, JsonVal.pyGet, h]
    rfl
  · intro fields cwf h1 h2
    rcases h2 with h2 | h2 <;>
    · simp only [TemperatureAdapter.extract_temperature, JsonVal.pyGet, h1,
        Option.getD_some, h2]
      rfl
  · intro fields cwf t h1 h2 h3 h4
    simp only [TemperatureAdapter.extract_temperature, JsonVal.pyGet, h1,
      Option.getD_some, h2]
    simp [h3, h4]
  · intro fields cwf q h1 h2
    simp only [TemperatureAdapter.extract_temperature, JsonVal.pyGet, h1,
      Option.getD_some, h2]
    rfl
  · intro fields cwf b h1 h2
    simp only [TemperatureAdapter.extract_temperature, JsonVal.pyGet, h1,
      Option.getD_some, h2]
    cases b <;> rfl
  · intro fields cw h1 h2
    simp only [TemperatureAdapter.extract_temperature, JsonVal.pyGet, h1]
    cases cw <;> simp_all [JsonVal.isObj, JsonVal.pyGet]

theorem temperature_read_classification_witness :
    TemperatureAdapter.read (HttpResult.response 500 (Except.error "x")) =
      Except.error (DeviceError.unreachable ("Temperature API HTTP error " ++ toString 500)) :=
  temperature_read_classification.2.2.1 500 (Except.error "x") (by decide)

/-! ### Preservation of the subscription-index invariant -/

theorem subsInv_disconnect {s : ManagerState} (ws : Conn) (h : SubsInv s) :
    SubsInv (ConnectionManager.disconnect s ws) := by
  intro p hp c hc
  simp only [ConnectionManager.disconnect, List.mem_filter, List.mem_map] at hp
  obtain ⟨⟨q, hq, rfl⟩, -⟩ := hp
  exact Finset.mem_erase.mpr
    ⟨Finset.ne_of_mem_erase hc, h q hq c (Finset.mem_of_mem_erase hc)⟩

theorem subsInv_foldl_disconnect (l : List Conn) {s : ManagerState} (h : SubsInv s) :
    SubsInv (l.foldl (fun st c => ConnectionManager.disconnect st c) s) := by
  induction l generalizing s with
  | nil => exact h
  | cons a l ih => exact ih (subsInv_disconnect a h)

theorem subsInv_send (failing : Finset Conn) (ws : Conn) {s : ManagerState}
    (h : SubsInv s) : SubsInv (ConnectionManager.send_to_connection s failing ws) := by
  unfold ConnectionManager.send_to_connection
  split
  · exact subsInv_disconnect ws h
  · exact h

theorem subsInv_insert_active (ws : Conn) {s : ManagerState} (h : SubsInv s) :
    SubsInv { s with active_connections := insert ws s.active_connections } :=
  fun p hp c hc => Finset.mem_insert_of_mem (h p hp c hc)

theorem subsInv_subscribe_update (d : String) {s : ManagerState} {ws : Conn}
    (hws : ws ∈ s.active_connections) (h : SubsInv s) :
    SubsInv { s with device_subscriptions :=
        ConnectionManager.subsInsert s.device_subscriptions d ws } := by
  intro p hp c hc
  simp only at hp hc ⊢
  unfold ConnectionManager.subsInsert at hp
  split at hp
  · simp only [List.mem_map] at hp
    obtain ⟨q, hq, hpq⟩ := hp
    by_cases hqd : q.1 = d
    · rw [if_pos hqd] at hpq
      subst hpq
      rcases Finset.mem_insert.mp hc with rfl | hcq
      · exact hws
      · exact h q hq c hcq
    · rw [if_neg hqd] at hpq
      subst hpq
      exact h q hq c hc
  · rcases List.mem_append.mp hp with hp | hp
    · exact h p hp c hc
    · simp only [List.mem_singleton] at hp
      subst hp
      have hcw : c = ws := by simpa using hc
      subst hcw
      exact hws

theorem subsInv_unsubscribe_update (d : String) (ws : Conn) {s : ManagerState}
    (h : SubsInv s) :
    SubsInv { s with device_subscriptions :=
        ConnectionManager.subsRemove s.device_subscriptions d ws } := by
  intro p hp c hc
  simp only at hp hc ⊢
  unfold ConnectionManager.subsRemove at hp
  split at hp
  · simp only [List.mem_filter, List.mem_map] at hp
    obtain ⟨⟨q, hq, hpq⟩, -⟩ := hp
    by_cases hqd : q.1 = d
    · rw [if_pos hqd] at hpq
      subst hpq
      exact h q hq c (Finset.mem_of_mem_erase hc)
    · rw [if_neg hqd] at hpq
      subst hpq
      exact h q hq c hc
  · exact h p hp c hc

theorem subsInv_broadcast_to_connections (failing conns : Finset Conn)
    (msg : WsMessage) {s : ManagerState} (h : SubsInv s) :
    SubsInv (ConnectionManager.broadcast_to_connections s failing conns msg).2 := by
  unfold ConnectionManager.broadcast_to_connections
  split
  · exact h
  · exact subsInv_foldl_disconnect _ h

theorem subsInv_broadcast_device_update (failing : Finset Conn) (d data : String)
    {s : ManagerState} (h : SubsInv s) :
    SubsInv (ConnectionManager.broadcast_device_update s failing d data).2 := by
  unfold ConnectionManager.broadcast_device_update
  split
  · exact h
  · exact subsInv_broadcast_to_connections _ _ _ h

theorem subsInv_broadcast_system_status (failing : Finset Conn) (data : String)
    {s : ManagerState} (h : SubsInv s) :
    SubsInv (ConnectionManager.broadcast_system_status s failing data).2 := by
  unfold ConnectionManager.broadcast_system_status
  split
  · exact h
  · exact subsInv_broadcast_to_connections _ _ _ h

/-- Claim C2 counterexample: the claim quantifies over sequences of the
registry operations applied to **arbitrary** connections, but
`subscribe_to_device` performs no membership check against the active
set, so subscribing a connection that was never connected (equally: one
already disconnected) is reachable and puts it in a subscription set
while the active set stays empty. -/
theorem subscription_invariant_cex :
    ConnectionManager.Reachable
      (ConnectionManager.subscribe_to_device ManagerState.init ∅ 0 "motor-1") ∧
    ¬ SubsInv (ConnectionManager.subscribe_to_device ManagerState.init ∅ 0 "motor-1") :=
  ⟨ConnectionManager.Reachable.subscribe _ _ _ _ ConnectionManager.Reachable.init,
   by decide⟩

/-- Claim C2 as amended: in every state reachable by sequences of
`connect` / `disconnect` / `subscribe` / `unsubscribe` / broadcasts in
which `subscribe` is only ever applied to a currently active connection
(the discipline of the WebSocket endpoint layer), every connection
appearing in any per-device subscription set is also a member of the
active-connection set. -/
theorem subscription_invariant_guarded (s : ManagerState)
    (h : ConnectionManager.ReachableGuarded s) : SubsInv s := by
  induction h with
  | init =>
      intro p hp c hc
      simp [ManagerState.init] at hp
  | connect s failing ws _ ih =>
      exact subsInv_send failing ws (subsInv_insert_active ws ih)
  | disconnect s ws _ ih =>
      exact subsInv_disconnect ws ih
  | subscribe s failing ws d hws _ ih =>
      exact subsInv_send failing ws (subsInv_subscribe_update d hws ih)
  | unsubscribe s failing ws d _ ih =>
      exact subsInv_send failing ws (subsInv_unsubscribe_update d ws ih)
  | bcastDevice s failing d data _ ih =>
      exact subsInv_broadcast_device_update failing d data ih
  | bcastSystem s failing data _ ih =>
      exact subsInv_broadcast_system_status failing data ih

theorem subscription_invariant_guarded_witness :
    SubsInv (ConnectionManager.subscribe_to_device
      (ConnectionManager.connect ManagerState.init ∅ 0) ∅ 0 "motor-1") :=
  subscription_invariant_guarded _
    (ConnectionManager.ReachableGuarded.subscribe _ _ _ _ (by decide)
      (ConnectionManager.ReachableGuarded.connect _ _ _
        ConnectionManager.ReachableGuarded.init))

/-- Claim C6: `broadcast_device_update` sends nothing and changes no
state when the active set is empty; otherwise it sends the one
`device_update` message to every connection in the active set — exactly
the active set, independent of the per-device subscription index, so
non-subscribers of the device receive it too. -/
theorem broadcast_device_update_global_fanout (s : ManagerState)
    (failing : Finset Conn) (device_id device_data : String) :
    (s.active_connections = ∅ →
       ConnectionManager.broadcast_device_update s failing device_id device_data
         = ([], s)) ∧
    (s.active_connections ≠ ∅ →
       (ConnectionManager.broadcast_device_update s failing device_id
           device_data).1.map Prod.fst = s.active_connections.sort (· ≤ ·) ∧
       ∀ pm ∈ (ConnectionManager.broadcast_device_update s failing device_id
           device_data).1,
         pm.2 = { mtype := "device_update", device_id := Option.some device_id,
                  data := Option.some device_data }) := by
  constructor
  · intro h
    simp [ConnectionManager.broadcast_device_update, h]
  · intro h
    constructor
    · simp only [ConnectionManager.broadcast_device_update,
        ConnectionManager.broadcast_to_connections, if_neg h, List.map_map]
      exact List.map_id _
    · intro pm hpm
      simp only [ConnectionManager.broadcast_device_update,
        ConnectionManager.broadcast_to_connections, if_neg h, List.mem_map] at hpm
      obtain ⟨c, hc, heq⟩ := hpm
      rw [← heq]

theorem broadcast_device_update_global_fanout_witness :
    (ConnectionManager.broadcast_device_update ⟨{0, 1}, [("m", {0})]⟩ ∅ "m" "d").1.map
        Prod.fst = ({0, 1} : Finset Conn).sort (· ≤ ·) :=
  ((broadcast_device_update_global_fanout ⟨{0, 1}, [("m", {0})]⟩ ∅ "m" "d").2
    (by decide)).1

/-- Claim C1: with N active connections of which exactly one, `f`, has
a failing send, `broadcast_device_update` reaps precisely `f`: the
active set afterwards is the old one minus `f` (so N−1 connections),
and `f` is absent from every per-device subscription set. -/
theorem broadcast_reaps_failing_connection (s : ManagerState) (failing : Finset Conn)
    (f : Conn) (device_id device_data : String)
    (hf : f ∈ s.active_connections)
    (hone : s.active_connections ∩ failing = {f}) :
    (ConnectionManager.broadcast_device_update s failing device_id
        device_data).2.active_connections = s.active_connections.erase f ∧
    (ConnectionManager.broadcast_device_update s failing device_id
        device_data).2.active_connections.card = s.active_connections.card - 1 ∧
    ∀ p ∈ (ConnectionManager.broadcast_device_update s failing device_id
        device_data).2.device_subscriptions, f ∉ p.2 := by
  have hne : s.active_connections ≠ ∅ := Finset.ne_empty_of_mem hf
  have hstep : (ConnectionManager.broadcast_device_update s failing device_id
      device_data).2 = ConnectionManager.disconnect s f := by
    simp [ConnectionManager.broadcast_device_update,
      ConnectionManager.broadcast_to_connections, hne, hone, Finset.sort_singleton]
  rw [hstep]
  refine ⟨rfl, ?_, ?_⟩
  · show (s.active_connections.erase f).card = s.active_connections.card - 1
    exact Finset.card_erase_of_mem hf
  · intro p hp
    simp only [ConnectionManager.disconnect, List.mem_filter, List.mem_map] at hp
    obtain ⟨⟨q, hq, rfl⟩, -⟩ := hp
    exact Finset.not_mem_erase f q.2

theorem broadcast_reaps_failing_connection_witness :
    (ConnectionManager.broadcast_device_update ⟨{0, 1}, [("m", {0, 1})]⟩ {1} "m"
        "d").2.active_connections = ({0, 1} : Finset Conn).erase 1 ∧
    (ConnectionManager.broadcast_device_update ⟨{0, 1}, [("m", {0, 1})]⟩ {1} "m"
        "d").2.active_connections.card = ({0, 1} : Finset Conn).card - 1 :=
  ⟨(broadcast_reaps_failing_connection ⟨{0, 1}, [("m", {0, 1})]⟩ {1} 1 "m" "d"
      (by decide) (by decide)).1,
   (broadcast_reaps_failing_connection ⟨{0, 1}, [("m", {0, 1})]⟩ {1} 1 "m" "d"
      (by decide) (by decide)).2.1⟩

end MachineControl
